import Mathlib

/-!
Shallow embedding of the identity / session-issuance core of the
`impala-bridge` service (`src/impala-bridge/src/handlers/authenticate.rs`,
`token.rs`, `mfa.rs`, together with `constants.rs`, `models.rs`, `error.rs`).

State is passed explicitly: the relational store (Postgres) and the
ephemeral counter cache (Redis) are records of total lookup functions, and
each handler is a pure function from (state, request, clock) to
(result, updated state).  External crates (`password_auth`, `jsonwebtoken`,
`totp-rs`) are modelled by the contract the handlers rely on; the TOTP code
computation (HMAC-SHA1, RFC 6238) is implemented in full because the claims
quantify over generated codes.
-/

set_option maxRecDepth 100000

set_option maxHeartbeats 4000000

namespace Impala

/- Constants from `src/impala-bridge/src/constants.rs`. -/

def MIN_PASSWORD_LENGTH : Nat := 8

def REFRESH_TOKEN_TTL_SECS : Nat := 30 * 24 * 3600

def TEMPORAL_TOKEN_TTL_SECS : Nat := 3600

def RATE_LIMIT_MAX_REQUESTS : Nat := 10

def RATE_LIMIT_WINDOW_SECS : Nat := 60

def LOCKOUT_THRESHOLD : Nat := 5

def LOCKOUT_DURATION_SECS : Nat := 15 * 60

def TOKEN_TYPE_REFRESH : String := "refresh"

def TOKEN_TYPE_TEMPORAL : String := "temporal"

/- Error type from `src/impala-bridge/src/error.rs` (variants used by the
   three handlers under study). -/

inductive AppError where
  | Unauthorized : AppError
  | RateLimited : AppError
  | InternalError (msg : String) : AppError
deriving DecidableEq, Repr

/- Request / response shapes from `src/impala-bridge/src/models.rs`. -/

structure AuthenticateRequest where
  account_id : String
  password : String
deriving DecidableEq, Repr

structure AuthenticateResponse where
  success : Bool
  message : String
  action : String
deriving DecidableEq, Repr

structure MfaEnrollment where
  account_id : String
  mfa_type : String
  secret : Option String
  phone_number : Option String
  enabled : Bool
deriving DecidableEq, Repr

structure VerifyMfaRequest where
  account_id : String
  mfa_type : String
  code : String
deriving DecidableEq, Repr

structure MfaResponse where
  success : Bool
  message : String
  provisioning_uri : Option String
deriving DecidableEq, Repr

/-- Relational store (Postgres).  `accounts a` is the row count of
`impala_account` rows with `payala_account_id = a` (the handler only asks
whether this count is zero); `auth` is the `impala_auth` table keyed by
`account_id`; `mfa` is the `impala_mfa` table keyed by
`(account_id, mfa_type)`. -/
structure Db where
  accounts : String → Nat
  auth : String → Option String
  mfa : String → String → Option MfaEnrollment

/-- Ephemeral cache (Redis).  `up` models whether
`redis_client.get_async_connection()` succeeds; the handlers skip their
cache-backed checks when it does not (fail-open).  `counters` holds the
numeric keys read with `unwrap_or(0)` (rate and lockout counters), `ttls`
the expiry set by `EXPIRE`, and `strs` the string-valued keys (SMS
challenge codes). -/
structure Redis where
  up : Bool
  counters : String → Option Nat
  ttls : String → Option Nat
  strs : String → Option String

/-- Redis `GET` of a counter key, with the handlers' `unwrap_or(0)`. -/
def Redis.getCounter (r : Redis) (k : String) : Nat :=
  (r.counters k).getD 0

/-- Redis `INCRBY key 1`. -/
def Redis.incr (r : Redis) (k : String) : Redis :=
  { r with counters := fun x => if x = k then some (r.getCounter k + 1) else r.counters x }

/-- Redis `EXPIRE key ttl`. -/
def Redis.expire (r : Redis) (k : String) (ttl : Nat) : Redis :=
  { r with ttls := fun x => if x = k then some ttl else r.ttls x }

/-- Redis `DEL` of a counter key (removes the value and any TTL). -/
def Redis.del (r : Redis) (k : String) : Redis :=
  { r with counters := fun x => if x = k then none else r.counters x,
           ttls := fun x => if x = k then none else r.ttls x }

/-- Redis `DEL` of a string-valued key. -/
def Redis.delStr (r : Redis) (k : String) : Redis :=
  { r with strs := fun x => if x = k then none else r.strs x,
           ttls := fun x => if x = k then none else r.ttls x }

/-- Models the external `password_auth` crate's `generate_hash`: a
self-describing digest of the password.  The real digest carries a random
salt; the handlers only ever feed a digest back into `verify_password`, so
a deterministic digest that `verify_password` accepts exactly for the
hashed password captures the crate's contract. -/
def generate_hash (password : String) : String :=
  "argon2id$" ++ password

/-- Models `password_auth::verify_password`: succeeds exactly when the
password matches the one the digest was generated from. -/
def verify_password (password digest : String) : Bool :=
  digest == generate_hash password

/-- Register or authenticate a user: the part of
`handlers/authenticate.rs` after the rate-limiting block (account lockout
check onward).  Returns the handler result together with the updated
store and cache. -/
def authAfterRate (db : Db) (r : Redis) (payload : AuthenticateRequest) :
    Except AppError AuthenticateResponse × Db × Redis :=
  -- Account lockout check (skipped when the cache connection fails)
  if r.up ∧ r.getCounter ("lockout:" ++ payload.account_id) ≥ LOCKOUT_THRESHOLD then
    (.ok ⟨false, "Account temporarily locked due to too many failed attempts", ""⟩, db, r)
  -- Validate password strength
  else if payload.password.utf8ByteSize < MIN_PASSWORD_LENGTH then
    (.ok ⟨false, "Password must be at least " ++ toString MIN_PASSWORD_LENGTH ++ " characters",
      ""⟩, db, r)
  -- Verify account exists; on absence the handler runs a decoy
  -- generate_hash/verify_password cycle (pure, no state effect) and
  -- returns the same response as a wrong password
  else if db.accounts payload.account_id = 0 then
    (.ok ⟨false, "Invalid credentials", ""⟩, db, r)
  else
    -- Check if auth credentials exist
    match db.auth payload.account_id with
    | none =>
      -- No credentials exist: register new user
      let password_hash := generate_hash payload.password
      (.ok ⟨true, "Registration successful", "registered"⟩,
        { db with auth := fun k => if k = payload.account_id then some password_hash
                                   else db.auth k },
        r)
    | some stored_hash =>
      if verify_password payload.password stored_hash then
        -- Reset failed login counter on success
        let r := if r.up then r.del ("lockout:" ++ payload.account_id) else r
        (.ok ⟨true, "Authentication successful", "authenticated"⟩, db, r)
      else
        -- Increment failed login counter
        let r := if r.up then
            (r.incr ("lockout:" ++ payload.account_id)).expire
              ("lockout:" ++ payload.account_id) LOCKOUT_DURATION_SECS
          else r
        (.ok ⟨false, "Invalid credentials", ""⟩, db, r)

/-- The `authenticate` handler (`POST /authenticate`,
`handlers/authenticate.rs`): fixed-window rate limiting, then
`authAfterRate`.  When the cache connection fails the rate-limiting block
is skipped entirely. -/
def authenticate (db : Db) (r : Redis) (payload : AuthenticateRequest) :
    Except AppError AuthenticateResponse × Db × Redis :=
  if r.up then
    let rate_key := "rate:auth:" ++ payload.account_id
    let count := r.getCounter rate_key
    if count ≥ RATE_LIMIT_MAX_REQUESTS then
      (.error .RateLimited, db, r)
    else
      authAfterRate db ((r.incr rate_key).expire rate_key RATE_LIMIT_WINDOW_SECS) payload
  else
    authAfterRate db r payload

/- Token issuance (`src/impala-bridge/src/handlers/token.rs`).  The
`jsonwebtoken` crate is modelled by its contract: an encoded token is the
claim set together with the secret it was signed with; `decode` with
`Validation::default()` succeeds exactly when the verification key matches
the signing key and the `exp` claim has not passed. -/

structure Claims where
  sub : String
  token_type : String
  exp : Nat
  iat : Nat
deriving DecidableEq, Repr

/-- Models a JWT string: the claim set plus the key used to sign it. -/
structure Jwt where
  claims : Claims
  signedWith : String
deriving DecidableEq, Repr

/-- Models `jsonwebtoken::encode` with the default header. -/
def jwtEncode (key : String) (c : Claims) : Jwt :=
  ⟨c, key⟩

/-- Models `jsonwebtoken::decode` with `Validation::default()` (signature
check plus expiry check) at current time `now`. -/
def jwtDecode (tok : Jwt) (key : String) (now : Nat) : Option Claims :=
  if tok.signedWith = key ∧ now ≤ tok.claims.exp then some tok.claims else none

structure TokenRequest where
  username : Option String
  password : Option String
  refresh_token : Option Jwt
deriving DecidableEq, Repr

structure TokenResponse where
  success : Bool
  message : String
  refresh_token : Option Jwt
  temporal_token : Option Jwt
deriving DecidableEq, Repr

/-- The username + password → refresh-token part of `handlers/token.rs`
after its rate-limiting block: credential lookup, password verification
and refresh-token minting. -/
def tokenAfterRate (db : Db) (r : Redis) (jwt_secret : String) (now : Nat)
    (username password : String) : Except AppError TokenResponse × Redis :=
  match db.auth username with
  | none =>
    (.ok ⟨false, "Invalid credentials", none, none⟩, r)
  | some stored_hash =>
    if ¬ verify_password password stored_hash then
      (.ok ⟨false, "Invalid credentials", none, none⟩, r)
    else
      let refresh_claims : Claims :=
        { sub := username, token_type := "refresh",
          iat := now, exp := now + REFRESH_TOKEN_TTL_SECS }
      (.ok ⟨true, "Refresh token issued", some (jwtEncode jwt_secret refresh_claims), none⟩, r)

/-- The `token` handler (`POST /token`, `handlers/token.rs`).  Flow 1
exchanges a refresh token for a temporal token; flow 2 exchanges
username + password for a refresh token behind a rate limit. -/
def token (db : Db) (r : Redis) (jwt_secret : String) (now : Nat)
    (payload : TokenRequest) : Except AppError TokenResponse × Redis :=
  match payload.refresh_token with
  | some refresh_token =>
    -- Flow 1: refresh_token provided -> return a short-lived temporal_token
    match jwtDecode refresh_token jwt_secret now with
    | none => (.error .Unauthorized, r)
    | some claims =>
      if claims.token_type ≠ TOKEN_TYPE_REFRESH then
        (.ok ⟨false, "Invalid token type", none, none⟩, r)
      else
        let temporal_claims : Claims :=
          { sub := claims.sub, token_type := "temporal",
            iat := now, exp := now + TEMPORAL_TOKEN_TTL_SECS }
        (.ok ⟨true, "Temporal token issued", none,
          some (jwtEncode jwt_secret temporal_claims)⟩, r)
  | none =>
    -- Flow 2: username + password -> refresh_token
    let username := payload.username.getD ""
    let password := payload.password.getD ""
    if username = "" ∨ password = "" then
      (.ok ⟨false, "Either username/password or refresh_token must be provided",
        none, none⟩, r)
    else if r.up then
      -- Rate limiting check
      let rate_key := "rate:token:" ++ username
      let count := r.getCounter rate_key
      if count ≥ RATE_LIMIT_MAX_REQUESTS then
        (.error .RateLimited, r)
      else
        tokenAfterRate db ((r.incr rate_key).expire rate_key RATE_LIMIT_WINDOW_SECS)
          jwt_secret now username password
    else
      tokenAfterRate db r jwt_secret now username password

/- MFA verification (`src/impala-bridge/src/handlers/mfa.rs`).  The TOTP
check delegated to the `totp-rs` crate (`TOTP::check_current` with
algorithm SHA1, 6 digits, skew 1, step 30) is reproduced in full: SHA-1,
HMAC-SHA1, the RFC 4226 dynamic truncation and the skew window, together
with the RFC 4648 base32 decoding of `Secret::Encoded`. -/

/-- Truncate to a 32-bit word. -/
def u32 (x : Nat) : Nat := x % 4294967296

/-- Rotate a 32-bit word left by `n` bits. -/
def rotl (n x : Nat) : Nat := u32 ((x <<< n) ||| (x >>> (32 - n)))

/-- Big-endian 4-byte encoding of a 32-bit word. -/
def beBytes4 (n : Nat) : List Nat :=
  [n / 16777216 % 256, n / 65536 % 256, n / 256 % 256, n % 256]

/-- Big-endian 8-byte encoding of a 64-bit counter
(`u64::to_be_bytes`). -/
def beBytes8 (n : Nat) : List Nat :=
  [n / 72057594037927936 % 256, n / 281474976710656 % 256,
   n / 1099511627776 % 256, n / 4294967296 % 256,
   n / 16777216 % 256, n / 65536 % 256, n / 256 % 256, n % 256]

/-- SHA-1 round function `f` for round `i`. -/
def sha1F (i b c d : Nat) : Nat :=
  if i < 20 then (b &&& c) ||| ((4294967295 ^^^ b) &&& d)
  else if i < 40 then b ^^^ c ^^^ d
  else if i < 60 then (b &&& c) ||| (b &&& d) ||| (c &&& d)
  else b ^^^ c ^^^ d

/-- SHA-1 round constant `k` for round `i`. -/
def sha1K (i : Nat) : Nat :=
  if i < 20 then 0x5A827999
  else if i < 40 then 0x6ED9EBA1
  else if i < 60 then 0x8F1BBCDC
  else 0xCA62C1D6

/-- Group a 64-byte chunk into 16 big-endian 32-bit words. -/
def sha1Words16 : List Nat → List Nat
  | b0 :: b1 :: b2 :: b3 :: rest =>
    ((((b0 <<< 8) ||| b1) <<< 8 ||| b2) <<< 8 ||| b3) :: sha1Words16 rest
  | _ => []

/-- Extend the 16-word schedule by `fuel` further words
(`w[i] = rotl1 (w[i-3] xor w[i-8] xor w[i-14] xor w[i-16])`). -/
def sha1Extend (w : List Nat) : Nat → List Nat
  | 0 => w
  | fuel + 1 =>
    let n := w.length
    let x := rotl 1 ((w.getD (n - 3) 0) ^^^ (w.getD (n - 8) 0) ^^^
      (w.getD (n - 14) 0) ^^^ (w.getD (n - 16) 0))
    sha1Extend (w ++ [x]) fuel

/-- The 80 SHA-1 rounds over the schedule, starting at round index `i`. -/
def sha1Rounds : List Nat → Nat → Nat × Nat × Nat × Nat × Nat → Nat × Nat × Nat × Nat × Nat
  | [], _, st => st
  | w :: ws, i, (a, b, c, d, e) =>
    let t := u32 (rotl 5 a + sha1F i b c d + e + sha1K i + w)
    sha1Rounds ws (i + 1) (t, a, rotl 30 b, c, d)

/-- One SHA-1 compression of a 64-byte chunk into the running state. -/
def sha1Compress (h : Nat × Nat × Nat × Nat × Nat) (chunk : List Nat) :
    Nat × Nat × Nat × Nat × Nat :=
  let w := sha1Extend (sha1Words16 chunk) 64
  match h, sha1Rounds w 0 h with
  | (h0, h1, h2, h3, h4), (a, b, c, d, e) =>
    (u32 (h0 + a), u32 (h1 + b), u32 (h2 + c), u32 (h3 + d), u32 (h4 + e))

/-- Fold the compression over `fuel` chunks of 64 bytes. -/
def sha1Loop : Nat → List Nat → Nat × Nat × Nat × Nat × Nat → Nat × Nat × Nat × Nat × Nat
  | 0, _, h => h
  | fuel + 1, msg, h => sha1Loop fuel (msg.drop 64) (sha1Compress h (msg.take 64))

/-- SHA-1 padding: append `0x80`, zero bytes to 56 mod 64, then the
64-bit big-endian bit length. -/
def sha1Pad (msg : List Nat) : List Nat :=
  msg ++ [0x80] ++ List.replicate ((119 - msg.length % 64) % 64) 0 ++ beBytes8 (msg.length * 8)

/-- SHA-1 of a byte string, as 20 bytes. -/
def sha1 (msg : List Nat) : List Nat :=
  let padded := sha1Pad msg
  match sha1Loop (padded.length / 64) padded
      (0x67452301, 0xEFCDAB89, 0x98BADCFE, 0x10325476, 0xC3D2E1F0) with
  | (h0, h1, h2, h3, h4) =>
    beBytes4 h0 ++ beBytes4 h1 ++ beBytes4 h2 ++ beBytes4 h3 ++ beBytes4 h4

/-- HMAC-SHA1 (RFC 2104) of `msg` under `key`. -/
def hmacSha1 (key msg : List Nat) : List Nat :=
  let key := if 64 < key.length then sha1 key else key
  let key := key ++ List.replicate (64 - key.length) 0
  sha1 ((key.map (fun b => b ^^^ 0x5c)) ++ sha1 ((key.map (fun b => b ^^^ 0x36)) ++ msg))

/-- Left-pad the decimal representation of `value` with zeros to `digits`
characters (the `format!` call in `TOTP::generate`). -/
def padCode (digits value : Nat) : String :=
  let s := toString value
  String.mk (List.replicate (digits - s.length) '0') ++ s

/-- Models `totp_rs::TOTP::generate` for algorithm SHA1: HMAC over the
big-endian 8-byte counter `time / step`, RFC 4226 dynamic truncation,
reduction mod `10 ^ digits` and zero-padding. -/
def totpGenerate (secret : List Nat) (digits step time : Nat) : String :=
  let mac := hmacSha1 secret (beBytes8 (time / step))
  let offset := mac.getLastD 0 &&& 15
  let word := (((mac.getD offset 0 <<< 8 ||| mac.getD (offset + 1) 0) <<< 8 |||
    mac.getD (offset + 2) 0) <<< 8 ||| mac.getD (offset + 3) 0) &&& 0x7fffffff
  padCode digits (word % 10 ^ digits)

/-- Models `totp_rs::TOTP::check` at time `time`: compare the token
against the codes of steps `time / step - skew` through
`time / step + skew`. -/
def totpCheck (secret : List Nat) (digits skew step : Nat) (token : String)
    (time : Nat) : Bool :=
  let basestep := time / step - skew
  (List.range (skew * 2 + 1)).any fun i =>
    totpGenerate secret digits step ((basestep + i) * step) == token

/-- Decode one RFC 4648 base32 alphabet character (A-Z, 2-7). -/
def base32Char (c : Char) : Option Nat :=
  if 'A' ≤ c ∧ c ≤ 'Z' then some (c.toNat - 65)
  else if '2' ≤ c ∧ c ≤ '7' then some (c.toNat - 50 + 26)
  else none

/-- Accumulate base32 characters into bytes: `acc` holds `bits` pending
bits; a full byte is emitted whenever at least 8 bits are available, and
fewer than 8 trailing bits are discarded. -/
def base32DecodeAux : List Char → Nat → Nat → Option (List Nat)
  | [], _, _ => some []
  | c :: cs, acc, bits =>
    match base32Char c with
    | none => none
    | some v =>
      let acc2 := acc * 32 + v
      let bits2 := bits + 5
      if 8 ≤ bits2 then
        match base32DecodeAux cs (acc2 % 2 ^ (bits2 - 8)) (bits2 - 8) with
        | none => none
        | some rest => some ((acc2 >>> (bits2 - 8)) :: rest)
      else
        base32DecodeAux cs acc2 bits2

/-- Models `totp_rs::Secret::Encoded(..).to_bytes()`: RFC 4648 base32
decoding without padding; any character outside the alphabet fails. -/
def base32Decode (s : String) : Option (List Nat) :=
  base32DecodeAux s.toList 0 0

/-- Models the validation in `totp_rs::TOTP::new` as called by the
handlers (algorithm SHA1, 6 digits, issuer "Impala"): the secret must be
at least 128 bits and the account label must not contain a colon. -/
def totpNewOk (secret : List Nat) (account_name : String) : Bool :=
  decide (16 ≤ secret.length) && !(account_name.toList.contains ':')

/-- The `verify_mfa` handler (`POST /mfa/verify`, `handlers/mfa.rs`):
enrollment lookup, enabled and non-empty-code guards, then the TOTP check
(`TOTP::check_current` at time `now`) or the single-use SMS challenge
lookup in Redis. -/
def verify_mfa (db : Db) (r : Redis) (now : Nat) (payload : VerifyMfaRequest) :
    Except AppError MfaResponse × Redis :=
  match db.mfa payload.account_id payload.mfa_type with
  | none =>
    (.ok ⟨false, "MFA not enrolled for this account/type", none⟩, r)
  | some record =>
    if record.enabled = false then
      (.ok ⟨false, "MFA is disabled for this enrollment", none⟩, r)
    else if payload.code = "" then
      (.ok ⟨false, "Code must not be empty", none⟩, r)
    else if payload.mfa_type = "totp" then
      match record.secret with
      | none => (.ok ⟨false, "TOTP not properly configured", none⟩, r)
      | some secret_str =>
        match base32Decode secret_str with
        | none => (.error (.InternalError "Invalid TOTP configuration"), r)
        | some secret =>
          if totpNewOk secret payload.account_id = false then
            (.error (.InternalError "TOTP verification error"), r)
          else if totpCheck secret 6 1 30 payload.code now then
            (.ok ⟨true, "MFA verification successful", none⟩, r)
          else
            (.ok ⟨false, "Invalid verification code", none⟩, r)
    else if payload.mfa_type = "sms" then
      if r.up then
        let sms_key := "mfa:sms:" ++ payload.account_id ++ ":" ++ payload.mfa_type
        match r.strs sms_key with
        | some code =>
          if code = payload.code then
            (.ok ⟨true, "MFA verification successful", none⟩, r.delStr sms_key)
          else
            (.ok ⟨false, "Invalid verification code", none⟩, r)
        | none =>
          (.ok ⟨false, "Invalid verification code", none⟩, r)
      else
        (.error (.InternalError "Redis connection error"), r)
    else
      (.ok ⟨false, "Unsupported MFA type", none⟩, r)

/- Shared concrete fixtures for witness instantiations. -/

/-- An empty relational store. -/
def dbEmpty : Db :=
  { accounts := fun _ => 0, auth := fun _ => none, mfa := fun _ _ => none }

/-- A reachable cache with no keys set. -/
def redisUp : Redis :=
  { up := true, counters := fun _ => none, ttls := fun _ => none, strs := fun _ => none }

/-- An unreachable cache (connection attempts fail). -/
def redisDown : Redis :=
  { up := false, counters := fun _ => none, ttls := fun _ => none, strs := fun _ => none }

/-- A store with one external account row per id and no credentials. -/
def dbOneAccount : Db :=
  { accounts := fun _ => 1, auth := fun _ => none, mfa := fun _ _ => none }

/-- A store with one external account row per id and the credential of
password "password1" registered everywhere. -/
def dbRegistered : Db :=
  { accounts := fun _ => 1, auth := fun _ => some (generate_hash "password1"),
    mfa := fun _ _ => none }

/-- Sequential `authenticate` calls threading the store and the cache;
`authenticateIter n` performs `n + 1` calls and returns the last
result. -/
def authenticateIter : Nat → Db → Redis → AuthenticateRequest →
    Except AppError AuthenticateResponse × Db × Redis
  | 0, db, r, p => authenticate db r p
  | n + 1, db, r, p =>
    let out := authenticate db r p
    authenticateIter n out.2.1 out.2.2 p

/-- The response `authenticate` computes once both cache-backed checks
are out of the picture: password-length validation, account existence
and credential resolution (the tail of `authAfterRate`). -/
def authDownResult (db : Db) (p : AuthenticateRequest) :
    Except AppError AuthenticateResponse :=
  if p.password.utf8ByteSize < MIN_PASSWORD_LENGTH then
    .ok ⟨false, "Password must be at least " ++ toString MIN_PASSWORD_LENGTH ++ " characters",
      ""⟩
  else if db.accounts p.account_id = 0 then
    .ok ⟨false, "Invalid credentials", ""⟩
  else
    match db.auth p.account_id with
    | none => .ok ⟨true, "Registration successful", "registered"⟩
    | some stored_hash =>
      if verify_password p.password stored_hash then
        .ok ⟨true, "Authentication successful", "authenticated"⟩
      else
        .ok ⟨false, "Invalid credentials", ""⟩

/-- A store in which "alice" has an enabled TOTP enrollment whose stored
base32 secret decodes to the bytes of "12345678901234567890". -/
def dbTotpEnrolled : Db :=
  { accounts := fun _ => 1, auth := fun _ => none,
    mfa := fun acc ty => if acc = "alice" ∧ ty = "totp" then
      some ⟨"alice", "totp", some "GEZDGNBVGY3TQOJQGEZDGNBVGY3TQOJQ", none, true⟩
    else none }

/-- A store in which "alice" has an enabled SMS enrollment. -/
def dbSmsEnrolled : Db :=
  { accounts := fun _ => 1, auth := fun _ => none,
    mfa := fun acc ty => if acc = "alice" ∧ ty = "sms" then
      some ⟨"alice", "sms", none, some "5551234", true⟩ else none }

/-- A reachable cache holding `code` as the SMS challenge for "alice". -/
def redisSms (code : String) : Redis :=
  { up := true, counters := fun _ => none, ttls := fun _ => none,
    strs := fun k => if k = "mfa:sms:alice:sms" then some code else none }

instance {ε α : Type} [DecidableEq ε] [DecidableEq α] : DecidableEq (Except ε α) :=
  fun a b =>
  match a, b with
  | .ok x, .ok y =>
    if h : x = y then .isTrue (by rw [h]) else .isFalse (by intro hc; cases hc; exact h rfl)
  | .error x, .error y =>
    if h : x = y then .isTrue (by rw [h]) else .isFalse (by intro hc; cases hc; exact h rfl)
  | .ok _, .error _ => .isFalse (by intro hc; cases hc)
  | .error _, .ok _ => .isFalse (by intro hc; cases hc)

/- Basic facts about the cache operations. -/

theorem Redis.up_incr (r : Redis) (k : String) : (r.incr k).up = r.up := rfl

theorem Redis.up_expire (r : Redis) (k : String) (t : Nat) : (r.expire k t).up = r.up := rfl

theorem Redis.up_del (r : Redis) (k : String) : (r.del k).up = r.up := rfl

theorem Redis.getCounter_incr_self (r : Redis) (k : String) :
    (r.incr k).getCounter k = r.getCounter k + 1 := by
  simp [Redis.incr, Redis.getCounter]

theorem Redis.getCounter_incr_ne (r : Redis) (k k' : String) (h : k' ≠ k) :
    (r.incr k).getCounter k' = r.getCounter k' := by
  simp [Redis.incr, Redis.getCounter, h]

theorem Redis.getCounter_expire (r : Redis) (k : String) (t : Nat) (k' : String) :
    (r.expire k t).getCounter k' = r.getCounter k' := rfl

theorem Redis.counters_expire (r : Redis) (k : String) (t : Nat) (k' : String) :
    (r.expire k t).counters k' = r.counters k' := rfl

theorem Redis.counters_incr_self (r : Redis) (k : String) :
    (r.incr k).counters k = some (r.getCounter k + 1) := by
  simp [Redis.incr]

theorem Redis.counters_incr_ne (r : Redis) (k k' : String) (h : k' ≠ k) :
    (r.incr k).counters k' = r.counters k' := by
  simp [Redis.incr, h]

theorem Redis.ttls_expire_self (r : Redis) (k : String) (t : Nat) :
    (r.expire k t).ttls k = some t := by
  simp [Redis.expire]

theorem Redis.ttls_incr (r : Redis) (k : String) (k' : String) :
    (r.incr k).ttls k' = r.ttls k' := rfl

theorem Redis.counters_del_self (r : Redis) (k : String) :
    (r.del k).counters k = none := by
  simp [Redis.del]

theorem Redis.strs_delStr_self (r : Redis) (k : String) :
    (r.delStr k).strs k = none := by
  simp [Redis.delStr]

theorem Redis.up_delStr (r : Redis) (k : String) : (r.delStr k).up = r.up := rfl

theorem Redis.ttls_del_self (r : Redis) (k : String) :
    (r.del k).ttls k = none := by
  simp [Redis.del]

/-- Distinct key namespaces: a lockout key is never a rate key. -/
theorem lockout_key_ne_rate_key (a b : String) : "lockout:" ++ a ≠ "rate:auth:" ++ b := by
  intro h
  have h1 : ("lockout:" ++ a).data.head? = some 'l' := rfl
  rw [h] at h1
  have h2 : ("rate:auth:" ++ b).data.head? = some 'r' := rfl
  rw [h2] at h1
  cases h1

/-- The model password digest determines the password. -/
theorem generate_hash_inj (p q : String) (h : generate_hash p = generate_hash q) : p = q := by
  have h2 : "argon2id$".data ++ p.data = "argon2id$".data ++ q.data :=
    congrArg String.data h
  have h3 : p.data = q.data := List.append_cancel_left h2
  cases p; cases q; exact congrArg String.mk h3

/-- Verification succeeds on the digest of the same password. -/
theorem verify_password_self (p : String) : verify_password p (generate_hash p) = true := by
  simp [verify_password]

/-- Verification fails on the digest of a different password. -/
theorem verify_password_ne (p q : String) (h : p ≠ q) :
    verify_password p (generate_hash q) = false := by
  have : generate_hash q ≠ generate_hash p := fun hc => h (generate_hash_inj q p hc).symm
  simp [verify_password, this]

/-- Helper: with the cache reachable, the rate window open, the account
not locked out and the password long enough, `authenticate` reduces to
the account / credential stage, run over the cache with the rate counter
bumped and its TTL reset. -/
theorem authenticate_cred_stage (db : Db) (r : Redis) (a pw : String)
    (hup : r.up = true)
    (hrate : r.getCounter ("rate:auth:" ++ a) < RATE_LIMIT_MAX_REQUESTS)
    (hlock : r.getCounter ("lockout:" ++ a) < LOCKOUT_THRESHOLD)
    (hlen : MIN_PASSWORD_LENGTH ≤ pw.utf8ByteSize) :
    authenticate db r ⟨a, pw⟩ =
      (let r2 := (r.incr ("rate:auth:" ++ a)).expire ("rate:auth:" ++ a)
        RATE_LIMIT_WINDOW_SECS
       if db.accounts a = 0 then
        (.ok ⟨false, "Invalid credentials", ""⟩, db, r2)
       else
        match db.auth a with
        | none =>
          (.ok ⟨true, "Registration successful", "registered"⟩,
            { db with auth := fun k => if k = a then some (generate_hash pw)
                                       else db.auth k }, r2)
        | some stored_hash =>
          if verify_password pw stored_hash then
            (.ok ⟨true, "Authentication successful", "authenticated"⟩, db,
              r2.del ("lockout:" ++ a))
          else
            (.ok ⟨false, "Invalid credentials", ""⟩, db,
              (r2.incr ("lockout:" ++ a)).expire ("lockout:" ++ a)
                LOCKOUT_DURATION_SECS)) := by
  have hkey := lockout_key_ne_rate_key a a
  simp only [authenticate, hup, if_true]
  rw [if_neg (by omega)]
  simp only [authAfterRate]
  rw [if_neg (by
    intro hc
    rw [Redis.getCounter_expire, Redis.getCounter_incr_ne r _ _ hkey] at hc
    omega)]
  rw [if_neg (by omega)]
  simp only [Redis.up_expire, Redis.up_incr, hup, if_true]

/-- Helper: an authenticate call that reaches an existing credential row
verifies the password and answers "authenticated" or
"Invalid credentials" accordingly. -/
theorem authenticate_existing_cred (db : Db) (r : Redis) (a pw stored : String)
    (hup : r.up = true)
    (hrate : r.getCounter ("rate:auth:" ++ a) < RATE_LIMIT_MAX_REQUESTS)
    (hlock : r.getCounter ("lockout:" ++ a) < LOCKOUT_THRESHOLD)
    (hlen : MIN_PASSWORD_LENGTH ≤ pw.utf8ByteSize)
    (hacct : db.accounts a ≠ 0)
    (hauth : db.auth a = some stored) :
    (verify_password pw stored = true →
      (authenticate db r ⟨a, pw⟩).1 =
        .ok ⟨true, "Authentication successful", "authenticated"⟩) ∧
    (verify_password pw stored = false →
      (authenticate db r ⟨a, pw⟩).1 = .ok ⟨false, "Invalid credentials", ""⟩) := by
  rw [authenticate_cred_stage db r a pw hup hrate hlock hlen]
  constructor <;> intro hv <;> simp [hacct, hauth, hv]

/-- Helper: with the cache unreachable the lockout check is skipped and
the response of `authAfterRate` is `authDownResult`, whatever the cache
contents. -/
theorem authAfterRate_down (db : Db) (r : Redis) (p : AuthenticateRequest)
    (hdown : r.up = false) :
    (authAfterRate db r p).1 = authDownResult db p := by
  simp only [authAfterRate, authDownResult]
  rw [if_neg (fun hc => by rw [hdown] at hc; exact Bool.false_ne_true hc.1)]
  split
  · rfl
  · split
    · rfl
    · split
      · rfl
      · split <;> rfl

/-- C4: a refresh token that verifies under the shared secret, is
unexpired and has token_type "refresh" yields success with no
refresh_token and a temporal token for the same subject whose expiry is
its issue time plus 3600 seconds. -/
theorem token_valid_refresh_yields_temporal (db : Db) (r : Redis) (secret : String)
    (now : Nat) (u p : Option String) (tok : Jwt)
    (hsig : tok.signedWith = secret)
    (hexp : now ≤ tok.claims.exp)
    (hty : tok.claims.token_type = TOKEN_TYPE_REFRESH) :
    token db r secret now ⟨u, p, some tok⟩ =
      (.ok ⟨true, "Temporal token issued", none,
        some (jwtEncode secret
          { sub := tok.claims.sub, token_type := "temporal",
            exp := now + TEMPORAL_TOKEN_TTL_SECS, iat := now })⟩, r) ∧
    (jwtEncode secret
      { sub := tok.claims.sub, token_type := "temporal",
        exp := now + TEMPORAL_TOKEN_TTL_SECS, iat := now }).claims.sub = tok.claims.sub ∧
    (jwtEncode secret
      { sub := tok.claims.sub, token_type := "temporal",
        exp := now + TEMPORAL_TOKEN_TTL_SECS, iat := now }).claims.token_type
        = TOKEN_TYPE_TEMPORAL ∧
    (jwtEncode secret
      { sub := tok.claims.sub, token_type := "temporal",
        exp := now + TEMPORAL_TOKEN_TTL_SECS, iat := now }).claims.exp
      = (jwtEncode secret
          { sub := tok.claims.sub, token_type := "temporal",
            exp := now + TEMPORAL_TOKEN_TTL_SECS, iat := now }).claims.iat + 3600 := by
  refine ⟨?_, rfl, rfl, rfl⟩
  simp [token, jwtDecode, hsig, hexp, hty]

/-- Witness for C4 at a concrete valid refresh token. -/
theorem token_valid_refresh_yields_temporal_witness :
    token dbEmpty redisUp "secret0" 1000
        ⟨none, none, some (jwtEncode "secret0" ⟨"alice", "refresh", 2000, 900⟩)⟩ =
      (.ok ⟨true, "Temporal token issued", none,
        some (jwtEncode "secret0"
          { sub := "alice", token_type := "temporal",
            exp := 1000 + TEMPORAL_TOKEN_TTL_SECS, iat := 1000 })⟩, redisUp) :=
  (token_valid_refresh_yields_temporal dbEmpty redisUp "secret0" 1000 none none
    (jwtEncode "secret0" ⟨"alice", "refresh", 2000, 900⟩) rfl (by decide) rfl).1

/-- C5: a refresh token with a wrong signature or a passed expiry is
rejected with the Unauthorized error, while a cryptographically valid
unexpired token of the wrong token_type gets an ordinary
success=false "Invalid token type" response with no token issued. -/
theorem token_refresh_reject (db : Db) (r : Redis) (secret : String) (now : Nat)
    (u p : Option String) (tok : Jwt) :
    (tok.signedWith ≠ secret ∨ tok.claims.exp < now →
      token db r secret now ⟨u, p, some tok⟩ = (.error .Unauthorized, r)) ∧
    (tok.signedWith = secret → now ≤ tok.claims.exp →
      tok.claims.token_type ≠ TOKEN_TYPE_REFRESH →
      token db r secret now ⟨u, p, some tok⟩ =
        (.ok ⟨false, "Invalid token type", none, none⟩, r)) := by
  constructor
  · intro hbad
    have hcond : ¬ (tok.signedWith = secret ∧ now ≤ tok.claims.exp) := by
      rcases hbad with h | h
      · exact fun hc => h hc.1
      · exact fun hc => absurd hc.2 (by omega)
    simp [token, jwtDecode, hcond]
  · intro hsig hexp hty
    simp [token, jwtDecode, hsig, hexp, hty]

/-- Witness for C5: an expired token is Unauthorized; a valid temporal
token presented as a refresh token gets the "Invalid token type"
response. -/
theorem token_refresh_reject_witness :
    token dbEmpty redisUp "secret0" 1000
        ⟨none, none, some (jwtEncode "secret0" ⟨"alice", "refresh", 500, 100⟩)⟩ =
      (.error .Unauthorized, redisUp) ∧
    token dbEmpty redisUp "secret0" 1000
        ⟨none, none, some (jwtEncode "secret0" ⟨"alice", "temporal", 2000, 900⟩)⟩ =
      (.ok ⟨false, "Invalid token type", none, none⟩, redisUp) :=
  ⟨(token_refresh_reject dbEmpty redisUp "secret0" 1000 none none
      (jwtEncode "secret0" ⟨"alice", "refresh", 500, 100⟩)).1 (Or.inr (by decide)),
   (token_refresh_reject dbEmpty redisUp "secret0" 1000 none none
      (jwtEncode "secret0" ⟨"alice", "temporal", 2000, 900⟩)).2 rfl (by decide)
      (by decide)⟩

/-- C10: when a refresh_token is present the token handler's result is a
function of the presented token, the signing secret and the clock alone:
any two requests with the same refresh token get the same response
whatever their username and password fields, whatever the credential
store and whatever the cache state, and the cache is left untouched. -/
theorem token_refresh_flow_pure (db db2 : Db) (r r2 : Redis) (secret : String)
    (now : Nat) (u p u2 p2 : Option String) (tok : Jwt) :
    (token db r secret now ⟨u, p, some tok⟩).1 =
      (token db2 r2 secret now ⟨u2, p2, some tok⟩).1 ∧
    (token db r secret now ⟨u, p, some tok⟩).2 = r := by
  constructor <;>
  · simp only [token]
    rcases h : jwtDecode tok secret now with _ | claims
    · rfl
    · by_cases hty : claims.token_type = TOKEN_TYPE_REFRESH <;> simp [hty]

/-- C6: on the authenticate path, a missing external account row and a
wrong password produce the literally identical response
(success=false, "Invalid credentials", action=""), and on the
password-token path a missing credential row and a failed verification
produce the literally identical response (success=false,
"Invalid credentials", no tokens); the response content never depends on
which of the two causes occurred. -/
theorem uniform_invalid_credentials (db : Db) (r : Redis) (a pw : String)
    (jwt_secret : String) (now : Nat)
    (hup : r.up = true)
    (hrate : r.getCounter ("rate:auth:" ++ a) < RATE_LIMIT_MAX_REQUESTS)
    (hlock : r.getCounter ("lockout:" ++ a) < LOCKOUT_THRESHOLD)
    (hlen : MIN_PASSWORD_LENGTH ≤ pw.utf8ByteSize) :
    (db.accounts a = 0 →
      (authenticate db r ⟨a, pw⟩).1 = .ok ⟨false, "Invalid credentials", ""⟩) ∧
    (∀ stored_hash, db.accounts a ≠ 0 → db.auth a = some stored_hash →
      verify_password pw stored_hash = false →
      (authenticate db r ⟨a, pw⟩).1 = .ok ⟨false, "Invalid credentials", ""⟩) ∧
    (∀ u pw2 : String, u ≠ "" → pw2 ≠ "" →
      r.getCounter ("rate:token:" ++ u) < RATE_LIMIT_MAX_REQUESTS →
      db.auth u = none →
      (token db r jwt_secret now ⟨some u, some pw2, none⟩).1 =
        .ok ⟨false, "Invalid credentials", none, none⟩) ∧
    (∀ u pw2 stored : String, u ≠ "" → pw2 ≠ "" →
      r.getCounter ("rate:token:" ++ u) < RATE_LIMIT_MAX_REQUESTS →
      db.auth u = some stored → verify_password pw2 stored = false →
      (token db r jwt_secret now ⟨some u, some pw2, none⟩).1 =
        .ok ⟨false, "Invalid credentials", none, none⟩) := by
  refine ⟨?_, ?_, ?_, ?_⟩
  · intro hacc
    rw [authenticate_cred_stage db r a pw hup hrate hlock hlen]
    simp [hacc]
  · intro stored_hash hacc hauth hverify
    rw [authenticate_cred_stage db r a pw hup hrate hlock hlen]
    simp [hacc, hauth, hverify]
  · intro u pw2 hu hpw2 hr hauth
    simp only [token, Option.getD_some]
    rw [if_neg (by simp [hu, hpw2])]
    simp only [hup, if_true]
    rw [if_neg (by omega)]
    simp [tokenAfterRate, hauth]
  · intro u pw2 stored hu hpw2 hr hauth hverify
    simp only [token, Option.getD_some]
    rw [if_neg (by simp [hu, hpw2])]
    simp only [hup, if_true]
    rw [if_neg (by omega)]
    simp [tokenAfterRate, hauth, hverify]

/-- Witness for C6: absent account, wrong password, absent credential
and failed token-path verification all at concrete inputs, each
returning the identical "Invalid credentials" response. -/
theorem uniform_invalid_credentials_witness :
    (authenticate dbEmpty redisUp ⟨"alice", "password1"⟩).1 =
      .ok ⟨false, "Invalid credentials", ""⟩ ∧
    (authenticate dbRegistered redisUp ⟨"alice", "password2"⟩).1 =
      .ok ⟨false, "Invalid credentials", ""⟩ ∧
    (token dbOneAccount redisUp "secret0" 1000 ⟨some "alice", some "password1", none⟩).1 =
      .ok ⟨false, "Invalid credentials", none, none⟩ ∧
    (token dbRegistered redisUp "secret0" 1000 ⟨some "alice", some "password2", none⟩).1 =
      .ok ⟨false, "Invalid credentials", none, none⟩ :=
  ⟨(uniform_invalid_credentials dbEmpty redisUp "alice" "password1" "secret0" 1000
      rfl (by decide) (by decide) (by decide)).1 rfl,
   (uniform_invalid_credentials dbRegistered redisUp "alice" "password2" "secret0" 1000
      rfl (by decide) (by decide) (by decide)).2.1 (generate_hash "password1")
      (by decide) rfl (by decide),
   (uniform_invalid_credentials dbOneAccount redisUp "alice" "password1" "secret0" 1000
      rfl (by decide) (by decide) (by decide)).2.2.1 "alice" "password1"
      (by decide) (by decide) (by decide) rfl,
   (uniform_invalid_credentials dbRegistered redisUp "alice" "password2" "secret0" 1000
      rfl (by decide) (by decide) (by decide)).2.2.2 "alice" "password2"
      (generate_hash "password1") (by decide) (by decide) (by decide) rfl (by decide)⟩

/-- C3: on both rate-limited paths, a counter already at the maximum
yields the RateLimited error with the store and cache untouched, while
below the maximum the counter is incremented, its TTL is (re)set to the
window length and the request proceeds to the next stage; an 11th
sequential authenticate call from a fresh cache is RateLimited. -/
theorem rate_limit_window (db : Db) (r : Redis) (a pw : String)
    (jwt_secret : String) (now : Nat) :
    (r.up = true → r.getCounter ("rate:auth:" ++ a) ≥ RATE_LIMIT_MAX_REQUESTS →
      authenticate db r ⟨a, pw⟩ = (.error .RateLimited, db, r)) ∧
    (r.up = true → r.getCounter ("rate:auth:" ++ a) < RATE_LIMIT_MAX_REQUESTS →
      authenticate db r ⟨a, pw⟩ =
        authAfterRate db ((r.incr ("rate:auth:" ++ a)).expire ("rate:auth:" ++ a)
          RATE_LIMIT_WINDOW_SECS) ⟨a, pw⟩ ∧
      ((r.incr ("rate:auth:" ++ a)).expire ("rate:auth:" ++ a)
          RATE_LIMIT_WINDOW_SECS).getCounter ("rate:auth:" ++ a) =
        r.getCounter ("rate:auth:" ++ a) + 1 ∧
      ((r.incr ("rate:auth:" ++ a)).expire ("rate:auth:" ++ a)
          RATE_LIMIT_WINDOW_SECS).ttls ("rate:auth:" ++ a) =
        some RATE_LIMIT_WINDOW_SECS) ∧
    (∀ u pw2 : String, u ≠ "" → pw2 ≠ "" → r.up = true →
      r.getCounter ("rate:token:" ++ u) ≥ RATE_LIMIT_MAX_REQUESTS →
      token db r jwt_secret now ⟨some u, some pw2, none⟩ = (.error .RateLimited, r)) ∧
    (∀ u pw2 : String, u ≠ "" → pw2 ≠ "" → r.up = true →
      r.getCounter ("rate:token:" ++ u) < RATE_LIMIT_MAX_REQUESTS →
      token db r jwt_secret now ⟨some u, some pw2, none⟩ =
        tokenAfterRate db ((r.incr ("rate:token:" ++ u)).expire ("rate:token:" ++ u)
          RATE_LIMIT_WINDOW_SECS) jwt_secret now u pw2 ∧
      ((r.incr ("rate:token:" ++ u)).expire ("rate:token:" ++ u)
          RATE_LIMIT_WINDOW_SECS).getCounter ("rate:token:" ++ u) =
        r.getCounter ("rate:token:" ++ u) + 1 ∧
      ((r.incr ("rate:token:" ++ u)).expire ("rate:token:" ++ u)
          RATE_LIMIT_WINDOW_SECS).ttls ("rate:token:" ++ u) =
        some RATE_LIMIT_WINDOW_SECS) ∧
    (authenticateIter 10 dbOneAccount redisUp ⟨"alice", "password1"⟩).1 =
      .error .RateLimited := by
  refine ⟨?_, ?_, ?_, ?_, by decide⟩
  · intro hup hge
    simp only [authenticate, hup, if_true]
    rw [if_pos hge]
  · intro hup hlt
    refine ⟨?_, ?_, ?_⟩
    · simp only [authenticate, hup, if_true]
      rw [if_neg (by omega)]
    · rw [Redis.getCounter_expire, Redis.getCounter_incr_self]
    · exact Redis.ttls_expire_self _ _ _
  · intro u pw2 hu hpw2 hup hge
    simp only [token, Option.getD_some]
    rw [if_neg (by simp [hu, hpw2])]
    simp only [hup, if_true]
    rw [if_pos hge]
  · intro u pw2 hu hpw2 hup hlt
    refine ⟨?_, ?_, ?_⟩
    · simp only [token, Option.getD_some]
      rw [if_neg (by simp [hu, hpw2])]
      simp only [hup, if_true]
      rw [if_neg (by omega)]
    · rw [Redis.getCounter_expire, Redis.getCounter_incr_self]
    · exact Redis.ttls_expire_self _ _ _

/-- Witness for C3: a saturated counter is denied without mutation and a
fresh counter is bumped to 1 with a 60-second TTL on both paths. -/
theorem rate_limit_window_witness :
    (authenticate dbOneAccount
        { up := true,
          counters := fun k => if k = "rate:auth:alice" then some 10 else none,
          ttls := fun _ => none, strs := fun _ => none } ⟨"alice", "password1"⟩ =
      (.error .RateLimited, dbOneAccount,
        { up := true,
          counters := fun k => if k = "rate:auth:alice" then some 10 else none,
          ttls := fun _ => none, strs := fun _ => none })) ∧
    ((authenticate dbOneAccount redisUp ⟨"alice", "password1"⟩).2.2.getCounter
        ("rate:auth:" ++ "alice") = 1 ∧
      (authenticate dbOneAccount redisUp ⟨"alice", "password1"⟩).2.2.ttls
        ("rate:auth:" ++ "alice") = some RATE_LIMIT_WINDOW_SECS) ∧
    (token dbRegistered
        { up := true,
          counters := fun k => if k = "rate:token:alice" then some 10 else none,
          ttls := fun _ => none, strs := fun _ => none } "secret0" 1000
        ⟨some "alice", some "password1", none⟩ =
      (.error .RateLimited,
        { up := true,
          counters := fun k => if k = "rate:token:alice" then some 10 else none,
          ttls := fun _ => none, strs := fun _ => none })) ∧
    ((token dbRegistered redisUp "secret0" 1000
        ⟨some "alice", some "password1", none⟩).2.getCounter
          ("rate:token:" ++ "alice") = 1 ∧
      (token dbRegistered redisUp "secret0" 1000
        ⟨some "alice", some "password1", none⟩).2.ttls
          ("rate:token:" ++ "alice") = some RATE_LIMIT_WINDOW_SECS) := by
  have h2 := (rate_limit_window dbOneAccount redisUp "alice" "password1" "secret0"
    1000).2.1 rfl (by decide)
  have h4 := ((rate_limit_window dbRegistered redisUp "alice" "password1" "secret0"
    1000).2.2.2.1 "alice" "password1" (by decide) (by decide) rfl (by decide))
  refine ⟨?_, ⟨?_, ?_⟩, ?_, ⟨?_, ?_⟩⟩
  · exact (rate_limit_window dbOneAccount _ "alice" "password1" "secret0" 1000).1
      rfl (by decide)
  · rw [h2.1]; exact h2.2.1
  · rw [h2.1]; exact h2.2.2
  · exact ((rate_limit_window dbRegistered _ "alice" "password1" "secret0"
      1000).2.2.1 "alice" "password1" (by decide) (by decide) rfl (by decide))
  · rw [h4.1]; exact h4.2.1
  · rw [h4.1]; exact h4.2.2

/-- C2: a lockout counter at or above the threshold makes authenticate
return the lockout response for every password and every credential
store — the store is neither consulted nor changed; below the threshold,
every wrong password bumps the lockout counter and resets its TTL to 900
seconds, and every successful verification deletes it. -/
theorem lockout_guard (db : Db) (r : Redis) (a : String)
    (hup : r.up = true)
    (hrate : r.getCounter ("rate:auth:" ++ a) < RATE_LIMIT_MAX_REQUESTS) :
    (r.getCounter ("lockout:" ++ a) ≥ LOCKOUT_THRESHOLD →
      ∀ (pw : String) (db2 : Db),
        (authenticate db2 r ⟨a, pw⟩).1 =
          .ok ⟨false, "Account temporarily locked due to too many failed attempts", ""⟩ ∧
        (authenticate db2 r ⟨a, pw⟩).2.1 = db2) ∧
    (r.getCounter ("lockout:" ++ a) < LOCKOUT_THRESHOLD →
      db.accounts a ≠ 0 →
      ∀ (pw stored_hash : String), db.auth a = some stored_hash →
        MIN_PASSWORD_LENGTH ≤ pw.utf8ByteSize →
        (verify_password pw stored_hash = false →
          (authenticate db r ⟨a, pw⟩).2.2.counters ("lockout:" ++ a) =
            some (r.getCounter ("lockout:" ++ a) + 1) ∧
          (authenticate db r ⟨a, pw⟩).2.2.ttls ("lockout:" ++ a) =
            some LOCKOUT_DURATION_SECS) ∧
        (verify_password pw stored_hash = true →
          (authenticate db r ⟨a, pw⟩).2.2.counters ("lockout:" ++ a) = none ∧
          (authenticate db r ⟨a, pw⟩).2.2.ttls ("lockout:" ++ a) = none)) ∧
    LOCKOUT_DURATION_SECS = 900 := by
  have hkey := lockout_key_ne_rate_key a a
  refine ⟨?_, ?_, rfl⟩
  · intro hlock pw db2
    have : authenticate db2 r ⟨a, pw⟩ =
        (.ok ⟨false, "Account temporarily locked due to too many failed attempts", ""⟩,
          db2, (r.incr ("rate:auth:" ++ a)).expire ("rate:auth:" ++ a)
            RATE_LIMIT_WINDOW_SECS) := by
      simp only [authenticate, hup, if_true]
      rw [if_neg (by omega)]
      simp only [authAfterRate]
      rw [if_pos ⟨by simp [Redis.up_expire, Redis.up_incr, hup], by
        rw [Redis.getCounter_expire, Redis.getCounter_incr_ne r _ _ hkey]; omega⟩]
    rw [this]
    exact ⟨rfl, rfl⟩
  · intro hlock hacc pw stored_hash hauth hlen
    rw [authenticate_cred_stage db r a pw hup hrate hlock hlen]
    constructor
    · intro hverify
      simp only [hacc, if_neg, hauth, hverify]
      simp [hacc, Redis.counters_expire, Redis.counters_incr_self,
        Redis.getCounter_expire, Redis.ttls_expire_self,
        Redis.getCounter_incr_ne r _ _ hkey]
    · intro hverify
      simp [hacc, hauth, hverify, Redis.counters_del_self, Redis.ttls_del_self]

/-- Witness for C2: a locked account gets the lockout response even with
the correct password; a wrong password bumps the counter with a 900
second TTL; a correct password deletes it. -/
theorem lockout_guard_witness :
    (authenticate dbRegistered
        { up := true,
          counters := fun k => if k = "lockout:alice" then some 5 else none,
          ttls := fun _ => none, strs := fun _ => none } ⟨"alice", "password1"⟩).1 =
      .ok ⟨false, "Account temporarily locked due to too many failed attempts", ""⟩ ∧
    (authenticate dbRegistered redisUp ⟨"alice", "password2"⟩).2.2.counters
      "lockout:alice" = some 1 ∧
    (authenticate dbRegistered redisUp ⟨"alice", "password2"⟩).2.2.ttls
      "lockout:alice" = some 900 ∧
    (authenticate dbRegistered
        { up := true,
          counters := fun k => if k = "lockout:alice" then some 4 else none,
          ttls := fun _ => none, strs := fun _ => none } ⟨"alice", "password1"⟩).2.2.counters
      "lockout:alice" = none := by
  have h1 := (lockout_guard dbRegistered
    { up := true,
      counters := fun k => if k = "lockout:alice" then some 5 else none,
      ttls := fun _ => none, strs := fun _ => none } "alice" rfl (by decide)).1
    (by decide) "password1" dbRegistered
  have h2 := ((lockout_guard dbRegistered redisUp "alice" rfl (by decide)).2.1
    (by decide) (by decide) "password2" (generate_hash "password1") rfl (by decide)).1
    (by decide)
  have h3 := ((lockout_guard dbRegistered
    { up := true,
      counters := fun k => if k = "lockout:alice" then some 4 else none,
      ttls := fun _ => none, strs := fun _ => none } "alice" rfl (by decide)).2.1
    (by decide) (by decide) "password1" (generate_hash "password1") rfl (by decide)).2
    (by decide)
  exact ⟨h1.1, h2.1, h2.2, h3.1⟩

/-- C9: with the cache unreachable both the rate-limit and the lockout
check are skipped: the call runs the validation / credential stage
directly, its response does not depend on any counter, it is never
RateLimited and never the lockout response, and a correct password still
authenticates. -/
theorem cache_down_fail_open (db : Db) (r : Redis) (p : AuthenticateRequest)
    (hdown : r.up = false) :
    authenticate db r p = authAfterRate db r p ∧
    (authenticate db r p).1 = authDownResult db p ∧
    (∀ (c t : String → Option Nat) (s : String → Option String)
       (c' t' : String → Option Nat) (s' : String → Option String),
      (authenticate db ⟨false, c, t, s⟩ p).1 =
        (authenticate db ⟨false, c', t', s'⟩ p).1) ∧
    (authenticate db r p).1 ≠ .error .RateLimited ∧
    (∀ resp, (authenticate db r p).1 = .ok resp →
      resp.message ≠ "Account temporarily locked due to too many failed attempts") ∧
    (authenticate dbRegistered redisDown ⟨"alice", "password1"⟩).1 =
      .ok ⟨true, "Authentication successful", "authenticated"⟩ := by
  have h1 : authenticate db r p = authAfterRate db r p := by
    simp [authenticate, hdown]
  have h2 : (authenticate db r p).1 = authDownResult db p := by
    rw [h1]; exact authAfterRate_down db r p hdown
  refine ⟨h1, h2, ?_, ?_, ?_, by decide⟩
  · intro c t s c' t' s'
    have e1 : authenticate db ⟨false, c, t, s⟩ p = authAfterRate db ⟨false, c, t, s⟩ p := by
      simp [authenticate]
    have e2 : authenticate db ⟨false, c', t', s'⟩ p =
        authAfterRate db ⟨false, c', t', s'⟩ p := by
      simp [authenticate]
    rw [e1, e2, authAfterRate_down db _ p rfl, authAfterRate_down db _ p rfl]
  · rw [h2]
    unfold authDownResult
    split
    · simp
    · split
      · simp
      · split
        · simp
        · split <;> simp
  · intro resp hresp
    rw [h2] at hresp
    unfold authDownResult at hresp
    split at hresp
    · cases hresp; decide
    · split at hresp
      · cases hresp; decide
      · split at hresp
        · cases hresp; decide
        · split at hresp <;> (cases hresp; decide)

/-- Witness for C9: an unreachable cache, a registered credential and the
correct password: the call is not rate limited and still succeeds. -/
theorem cache_down_fail_open_witness :
    (authenticate dbRegistered redisDown ⟨"alice", "password1"⟩).1 ≠
      .error .RateLimited ∧
    (authenticate dbRegistered redisDown ⟨"alice", "password1"⟩).1 =
      .ok ⟨true, "Authentication successful", "authenticated"⟩ := by
  have h := cache_down_fail_open dbRegistered redisDown ⟨"alice", "password1"⟩ rfl
  exact ⟨h.2.2.2.1, h.2.2.2.2.2⟩

/-- C1 counterexample: "alice" has never been seen by authenticate (no
credential row, no counters) and the password is 8+ bytes, yet the first
call returns success=false with action="" — because no `impala_account`
row exists for "alice" — instead of the claimed
success=true / action="registered". -/
theorem first_call_no_account_row_not_registered :
    8 ≤ "password1".utf8ByteSize ∧
    dbEmpty.auth "alice" = none ∧
    redisUp.counters "rate:auth:alice" = none ∧
    redisUp.counters "lockout:alice" = none ∧
    (authenticate dbEmpty redisUp ⟨"alice", "password1"⟩).1 =
      .ok ⟨false, "Invalid credentials", ""⟩ := by
  exact ⟨by decide, rfl, rfl, rfl, by decide⟩

/-- C1 (amended with: the external `impala_account` row for the
account_id exists): for a fresh account_id with such a row and a
password of 8+ bytes, the first call registers (and inserts the
credential row), a second call with the same password authenticates, and
a second call with a different 8+ byte password fails with an empty
action. -/
theorem first_auth_registers_then_authenticates (db : Db) (r : Redis)
    (a pw pw2 : String)
    (hup : r.up = true)
    (hrate : r.getCounter ("rate:auth:" ++ a) = 0)
    (hlock : r.getCounter ("lockout:" ++ a) = 0)
    (hacct : db.accounts a ≠ 0)
    (hauth : db.auth a = none)
    (hlen : MIN_PASSWORD_LENGTH ≤ pw.utf8ByteSize)
    (hlen2 : MIN_PASSWORD_LENGTH ≤ pw2.utf8ByteSize)
    (hne : pw2 ≠ pw) :
    (authenticate db r ⟨a, pw⟩).1 =
      .ok ⟨true, "Registration successful", "registered"⟩ ∧
    (authenticate db r ⟨a, pw⟩).2.1.auth a = some (generate_hash pw) ∧
    (authenticate (authenticate db r ⟨a, pw⟩).2.1
        (authenticate db r ⟨a, pw⟩).2.2 ⟨a, pw⟩).1 =
      .ok ⟨true, "Authentication successful", "authenticated"⟩ ∧
    (authenticate (authenticate db r ⟨a, pw⟩).2.1
        (authenticate db r ⟨a, pw⟩).2.2 ⟨a, pw2⟩).1 =
      .ok ⟨false, "Invalid credentials", ""⟩ := by
  have hkey := lockout_key_ne_rate_key a a
  have hcall1 := authenticate_cred_stage db r a pw hup
    (by rw [hrate]; decide) (by rw [hlock]; decide) hlen
  rw [if_neg hacct, hauth] at hcall1
  simp only [] at hcall1
  refine ⟨?_, ?_, ?_, ?_⟩
  · rw [hcall1]
  · rw [hcall1]; simp
  · rw [hcall1]
    exact (authenticate_existing_cred
      { accounts := db.accounts,
        auth := fun k => if k = a then some (generate_hash pw) else db.auth k,
        mfa := db.mfa }
      ((r.incr ("rate:auth:" ++ a)).expire ("rate:auth:" ++ a) RATE_LIMIT_WINDOW_SECS)
      a pw (generate_hash pw)
      (by rw [Redis.up_expire, Redis.up_incr]; exact hup)
      (by rw [Redis.getCounter_expire, Redis.getCounter_incr_self, hrate]; decide)
      (by rw [Redis.getCounter_expire,
              Redis.getCounter_incr_ne r ("rate:auth:" ++ a) ("lockout:" ++ a) hkey,
              hlock]
          decide)
      hlen hacct (by simp)).1 (verify_password_self pw)
  · rw [hcall1]
    exact (authenticate_existing_cred
      { accounts := db.accounts,
        auth := fun k => if k = a then some (generate_hash pw) else db.auth k,
        mfa := db.mfa }
      ((r.incr ("rate:auth:" ++ a)).expire ("rate:auth:" ++ a) RATE_LIMIT_WINDOW_SECS)
      a pw2 (generate_hash pw)
      (by rw [Redis.up_expire, Redis.up_incr]; exact hup)
      (by rw [Redis.getCounter_expire, Redis.getCounter_incr_self, hrate]; decide)
      (by rw [Redis.getCounter_expire,
              Redis.getCounter_incr_ne r ("rate:auth:" ++ a) ("lockout:" ++ a) hkey,
              hlock]
          decide)
      hlen2 hacct (by simp)).2 (verify_password_ne pw2 pw hne)

/-- Witness for the amended C1: fresh account "alice" with an account
row, first call registers, same-password second call authenticates,
different-password second call is rejected with an empty action. -/
theorem first_auth_registers_then_authenticates_witness :
    (authenticate dbOneAccount redisUp ⟨"alice", "password1"⟩).1 =
      .ok ⟨true, "Registration successful", "registered"⟩ ∧
    (authenticate (authenticate dbOneAccount redisUp ⟨"alice", "password1"⟩).2.1
        (authenticate dbOneAccount redisUp ⟨"alice", "password1"⟩).2.2
        ⟨"alice", "password1"⟩).1 =
      .ok ⟨true, "Authentication successful", "authenticated"⟩ ∧
    (authenticate (authenticate dbOneAccount redisUp ⟨"alice", "password1"⟩).2.1
        (authenticate dbOneAccount redisUp ⟨"alice", "password1"⟩).2.2
        ⟨"alice", "password2"⟩).1 =
      .ok ⟨false, "Invalid credentials", ""⟩ := by
  have h := first_auth_registers_then_authenticates dbOneAccount redisUp
    "alice" "password1" "password2" rfl rfl rfl (by decide) rfl (by decide)
    (by decide) (by decide)
  exact ⟨h.1, h.2.2.1, h.2.2.2⟩

/-- C8 counterexample: an enabled SMS enrollment whose stored challenge
code is the empty string.  Submitting exactly that stored code C = ""
does not succeed: the handler's empty-code guard fires first, the
response is success=false "Code must not be empty" (not the claimed
success=true, and not the claimed "Invalid verification code" for
never-stored codes either), and the challenge is not deleted. -/
theorem sms_empty_stored_code_not_verifiable :
    (redisSms "").strs "mfa:sms:alice:sms" = some "" ∧
    (verify_mfa dbSmsEnrolled (redisSms "") 0 ⟨"alice", "sms", ""⟩).1 =
      .ok ⟨false, "Code must not be empty", none⟩ ∧
    (verify_mfa dbSmsEnrolled (redisSms "") 0 ⟨"alice", "sms", ""⟩).2.strs
      "mfa:sms:alice:sms" = some "" :=
  ⟨rfl, by decide, rfl⟩

/-- C8 (amended with: the stored challenge code is non-empty, and the
cache is reachable): submitting the stored code succeeds and deletes the
challenge, so an immediate resubmission of the same code fails with
"Invalid verification code"; submitting any non-empty code that is not
the stored challenge (including when none is stored) fails with that
same message and leaves the cache unchanged. -/
theorem sms_challenge_single_use (db : Db) (r : Redis) (acc : String) (now : Nat)
    (rec : MfaEnrollment) (code : String)
    (henr : db.mfa acc "sms" = some rec)
    (hen : rec.enabled = true)
    (hup : r.up = true)
    (hcode : code ≠ "") :
    (r.strs ("mfa:sms:" ++ acc ++ ":" ++ "sms") = some code →
      verify_mfa db r now ⟨acc, "sms", code⟩ =
        (.ok ⟨true, "MFA verification successful", none⟩,
          r.delStr ("mfa:sms:" ++ acc ++ ":" ++ "sms")) ∧
      (r.delStr ("mfa:sms:" ++ acc ++ ":" ++ "sms")).strs
        ("mfa:sms:" ++ acc ++ ":" ++ "sms") = none ∧
      verify_mfa db (r.delStr ("mfa:sms:" ++ acc ++ ":" ++ "sms")) now
          ⟨acc, "sms", code⟩ =
        (.ok ⟨false, "Invalid verification code", none⟩,
          r.delStr ("mfa:sms:" ++ acc ++ ":" ++ "sms"))) ∧
    (∀ c2, c2 ≠ "" → r.strs ("mfa:sms:" ++ acc ++ ":" ++ "sms") ≠ some c2 →
      verify_mfa db r now ⟨acc, "sms", c2⟩ =
        (.ok ⟨false, "Invalid verification code", none⟩, r)) := by
  constructor
  · intro hstored
    refine ⟨?_, Redis.strs_delStr_self r _, ?_⟩
    · simp [verify_mfa, henr, hen, hcode, hup, hstored]
    · simp [verify_mfa, henr, hen, hcode, Redis.up_delStr, hup,
        Redis.strs_delStr_self]
  · intro c2 hc2 hnotstored
    rcases hs : r.strs ("mfa:sms:" ++ acc ++ ":" ++ "sms") with _ | c
    · simp [verify_mfa, henr, hen, hc2, hup, hs]
    · have hcc : c ≠ c2 := fun hcc => hnotstored (by rw [hs, hcc])
      simp [verify_mfa, henr, hen, hc2, hup, hs, hcc]

/-- Witness for the amended C8: stored code "123456" verifies once and
is deleted; verifying it again fails; a never-issued code fails with the
cache unchanged. -/
theorem sms_challenge_single_use_witness :
    verify_mfa dbSmsEnrolled (redisSms "123456") 0 ⟨"alice", "sms", "123456"⟩ =
      (.ok ⟨true, "MFA verification successful", none⟩,
        (redisSms "123456").delStr "mfa:sms:alice:sms") ∧
    verify_mfa dbSmsEnrolled ((redisSms "123456").delStr "mfa:sms:alice:sms") 0
        ⟨"alice", "sms", "123456"⟩ =
      (.ok ⟨false, "Invalid verification code", none⟩,
        (redisSms "123456").delStr "mfa:sms:alice:sms") ∧
    verify_mfa dbSmsEnrolled (redisSms "123456") 0 ⟨"alice", "sms", "654321"⟩ =
      (.ok ⟨false, "Invalid verification code", none⟩, redisSms "123456") := by
  have h := sms_challenge_single_use dbSmsEnrolled (redisSms "123456") "alice" 0
    ⟨"alice", "sms", none, some "5551234", true⟩ "123456"
    (by decide) rfl rfl (by decide)
  have h1 := h.1 (by decide)
  exact ⟨h1.1, h1.2.2, h.2 "654321" (by decide) (by decide)⟩

/-- Helper: `TOTP::check` with step 30 and skew 1 accepts exactly the
codes of the current time step and its two neighbours. -/
theorem totpCheck_window (secret : List Nat) (code : String) (now : Nat)
    (hnow : 1 ≤ now / 30) :
    totpCheck secret 6 1 30 code now = true ↔
      (code = totpGenerate secret 6 30 ((now / 30 - 1) * 30) ∨
       code = totpGenerate secret 6 30 (now / 30 * 30) ∨
       code = totpGenerate secret 6 30 ((now / 30 + 1) * 30)) := by
  have h1 : now / 30 - 1 + 1 = now / 30 := by omega
  have h2 : now / 30 - 1 + 2 = now / 30 + 1 := by omega
  have hr : List.range (1 * 2 + 1) = [0, 1, 2] := rfl
  unfold totpCheck
  rw [hr]
  simp only [List.any_cons, List.any_nil, Bool.or_eq_true, Bool.or_false,
    beq_iff_eq, Nat.add_zero, h1, h2]
  constructor
  · rintro (h | h | h)
    · exact Or.inl h.symm
    · exact Or.inr (Or.inl h.symm)
    · exact Or.inr (Or.inr h.symm)
  · rintro (h | h | h)
    · exact Or.inl h.symm
    · exact Or.inr (Or.inl h.symm)
    · exact Or.inr (Or.inr h.symm)

/-- Helper: under an enabled, well-formed TOTP enrollment, `verify_mfa`
reduces to the `totp-rs` window check on the decoded secret. -/
theorem verify_mfa_totp_unfold (db : Db) (r : Redis) (acc : String) (now : Nat)
    (rec : MfaEnrollment) (secret_b32 : String) (secret : List Nat) (code : String)
    (henr : db.mfa acc "totp" = some rec)
    (hen : rec.enabled = true)
    (hsec : rec.secret = some secret_b32)
    (hdec : base32Decode secret_b32 = some secret)
    (hlen : 16 ≤ secret.length)
    (hacc : acc.toList.contains ':' = false)
    (hcode : code ≠ "") :
    verify_mfa db r now ⟨acc, "totp", code⟩ =
      (if totpCheck secret 6 1 30 code now then
        .ok ⟨true, "MFA verification successful", none⟩
      else
        .ok ⟨false, "Invalid verification code", none⟩, r) := by
  have hok : totpNewOk secret acc = true := by
    unfold totpNewOk
    rw [hacc]
    simp [hlen]
  simp [verify_mfa, henr, hen, hcode, hsec, hdec, hok]
  split <;> rfl

/-- C7 counterexample: at time 3102750 (current step 103425) with the
enrolled secret, the RFC 6238 code of step 103427 — two steps away — is
"746629", which is not the current or next step's code but happens to
coincide with the previous step's code, so verify_mfa accepts it instead
of returning "Invalid verification code". -/
theorem totp_two_steps_away_code_accepted :
    base32Decode "GEZDGNBVGY3TQOJQGEZDGNBVGY3TQOJQ" =
      some [49, 50, 51, 52, 53, 54, 55, 56, 57, 48,
            49, 50, 51, 52, 53, 54, 55, 56, 57, 48] ∧
    3102750 / 30 = 103425 ∧
    totpGenerate [49, 50, 51, 52, 53, 54, 55, 56, 57, 48,
        49, 50, 51, 52, 53, 54, 55, 56, 57, 48] 6 30 ((103425 + 2) * 30) =
      "746629" ∧
    totpGenerate [49, 50, 51, 52, 53, 54, 55, 56, 57, 48,
        49, 50, 51, 52, 53, 54, 55, 56, 57, 48] 6 30 (103425 * 30) ≠ "746629" ∧
    totpGenerate [49, 50, 51, 52, 53, 54, 55, 56, 57, 48,
        49, 50, 51, 52, 53, 54, 55, 56, 57, 48] 6 30 ((103425 + 1) * 30) ≠
      "746629" ∧
    (verify_mfa dbTotpEnrolled redisUp 3102750 ⟨"alice", "totp", "746629"⟩).1 =
      .ok ⟨true, "MFA verification successful", none⟩ :=
  ⟨by decide, by decide, by decide, by decide, by decide, by decide⟩

/-- C7 (amended with: a code computed 2 steps away fails unless it
happens to coincide with one of the three accepted window codes): for an
enabled TOTP enrollment with a well-formed stored secret, a non-empty
code verifies exactly when it equals the RFC 6238 SHA1/6-digit/30-second
code of the current time step or of one step before or after; in
particular the current-step code succeeds, and any code outside those
three values gets "Invalid verification code". -/
theorem totp_verify_window_iff (db : Db) (r : Redis) (acc : String) (now : Nat)
    (rec : MfaEnrollment) (secret_b32 : String) (secret : List Nat) (code : String)
    (henr : db.mfa acc "totp" = some rec)
    (hen : rec.enabled = true)
    (hsec : rec.secret = some secret_b32)
    (hdec : base32Decode secret_b32 = some secret)
    (hlen : 16 ≤ secret.length)
    (hacc : acc.toList.contains ':' = false)
    (hcode : code ≠ "")
    (hnow : 1 ≤ now / 30) :
    ((verify_mfa db r now ⟨acc, "totp", code⟩).1 =
        .ok ⟨true, "MFA verification successful", none⟩ ↔
      (code = totpGenerate secret 6 30 ((now / 30 - 1) * 30) ∨
       code = totpGenerate secret 6 30 (now / 30 * 30) ∨
       code = totpGenerate secret 6 30 ((now / 30 + 1) * 30))) ∧
    (code = totpGenerate secret 6 30 (now / 30 * 30) →
      (verify_mfa db r now ⟨acc, "totp", code⟩).1 =
        .ok ⟨true, "MFA verification successful", none⟩) ∧
    (¬ (code = totpGenerate secret 6 30 ((now / 30 - 1) * 30) ∨
        code = totpGenerate secret 6 30 (now / 30 * 30) ∨
        code = totpGenerate secret 6 30 ((now / 30 + 1) * 30)) →
      (verify_mfa db r now ⟨acc, "totp", code⟩).1 =
        .ok ⟨false, "Invalid verification code", none⟩) := by
  have hunfold := verify_mfa_totp_unfold db r acc now rec secret_b32 secret code
    henr hen hsec hdec hlen hacc hcode
  have hwin := totpCheck_window secret code now hnow
  have hiff : (verify_mfa db r now ⟨acc, "totp", code⟩).1 =
      .ok ⟨true, "MFA verification successful", none⟩ ↔
      (code = totpGenerate secret 6 30 ((now / 30 - 1) * 30) ∨
       code = totpGenerate secret 6 30 (now / 30 * 30) ∨
       code = totpGenerate secret 6 30 ((now / 30 + 1) * 30)) := by
    by_cases hq : totpCheck secret 6 1 30 code now = true
    · refine iff_of_true ?_ (hwin.mp hq)
      rw [hunfold]
      simp [hq]
    · have hqf : totpCheck secret 6 1 30 code now = false := by
        cases h2 : totpCheck secret 6 1 30 code now
        · rfl
        · exact absurd h2 hq
      refine iff_of_false (fun hcontra => ?_) (fun hw => hq (hwin.mpr hw))
      rw [hunfold] at hcontra
      simp [hqf] at hcontra
  refine ⟨hiff, fun hcur => hiff.mpr (Or.inr (Or.inl hcur)), fun hnot => ?_⟩
  have hqf : totpCheck secret 6 1 30 code now = false := by
    cases h2 : totpCheck secret 6 1 30 code now
    · rfl
    · exact absurd (hwin.mp h2) hnot
  rw [hunfold]
  simp [hqf]

/-- Witness for the amended C7: at time 59 the current step is 1 and the
RFC 6238 test-vector code "287082" verifies. -/
theorem totp_verify_window_iff_witness :
    (verify_mfa dbTotpEnrolled redisUp 59 ⟨"alice", "totp", "287082"⟩).1 =
      .ok ⟨true, "MFA verification successful", none⟩ :=
  (totp_verify_window_iff dbTotpEnrolled redisUp "alice" 59
    ⟨"alice", "totp", some "GEZDGNBVGY3TQOJQGEZDGNBVGY3TQOJQ", none, true⟩
    "GEZDGNBVGY3TQOJQGEZDGNBVGY3TQOJQ"
    [49, 50, 51, 52, 53, 54, 55, 56, 57, 48,
     49, 50, 51, 52, 53, 54, 55, 56, 57, 48] "287082"
    (by decide) rfl rfl (by decide) (by decide) (by decide) (by decide)
    (by decide)).2.1 (by decide)

end Impala
